import Mathlib

set_option linter.unusedVariables false

/-!
A shallow embedding of the speech-to-speech translation pipeline
(`function_app.py`): the HTTP handler `translate`, the three stage
functions `speech_to_text`, `translate_text`, `text_to_speech`, and the
pure helpers they use (WAV-header stripping, locale-code extraction,
environment-variable resolution, translator URL and header
construction).  Remote capabilities (the base64 decoding outcome, the
speech recognizer, the translator HTTP endpoint, the synthesizer) are
modelled as oracle fields of an `Env` record; everything else is
translated directly from the source.
-/

namespace SpeechApp

/-- Python truthiness of an optional string: `None` and the empty
string are falsy. -/
def truthy : Option String → Bool
  | none => false
  | some s => s != ""

/-- Python `a or b` on optional string values: `a` when truthy, else `b`. -/
def pyOr (a b : Option String) : Option String :=
  if truthy a then a else b

/-- Python `s.strip()`: drop whitespace from both ends. -/
def pyStrip (s : String) : String :=
  String.mk (((s.data.dropWhile Char.isWhitespace).reverse.dropWhile Char.isWhitespace).reverse)

/-- Python `s.rstrip("/")`: drop every trailing slash. -/
def rstripSlash (s : String) : String :=
  String.mk ((s.data.reverse.dropWhile (fun c => c == '/')).reverse)

/-- The 4-byte ASCII marker `RIFF`, as byte values. -/
def riffMarker : List Nat := [82, 73, 70, 70]

/-- WAV-header stripping from `speech_to_text` (lines 130-132 of the
source): when the audio is longer than 44 bytes and starts with `RIFF`,
drop the first 44 bytes; otherwise leave it unchanged. -/
def normalizeAudio (audio_bytes : List Nat) : List Nat :=
  if 44 < audio_bytes.length ∧ audio_bytes.take 4 = riffMarker then
    audio_bytes.drop 44
  else
    audio_bytes

/-- The nested helper of `translate_text` in the source:
`locale.split("-", 1)[0] if locale else ""` — the segment of the locale
before the first `-` (the whole locale when it has no `-`), and the
empty string for a falsy (empty) locale. -/
def extract_language_code (locale : String) : String :=
  if locale = "" then "" else String.mk (locale.data.takeWhile (fun c => c != '-'))

/-- A decoded JSON value (the shape `response.json()` can take). -/
inductive Json where
  | null
  | bool (b : Bool)
  | num (n : Int)
  | str (s : String)
  | arr (items : List Json)
  | obj (fields : List (String × Json))

/-- The Python exceptions that subscripting a decoded JSON value can
raise; `translate_text` catches only `KeyError` and `IndexError`. -/
inductive PyExc where
  | keyError
  | indexError
  | typeError
deriving DecidableEq

/-- Python subscripting `j[i]` for an integer index `i` on a decoded
JSON value: lists index (IndexError when out of range), strings index
characterwise, JSON objects have only string keys so an integer
subscript is a KeyError, and every other value raises TypeError. -/
def getItemNat : Json → Nat → Except PyExc Json
  | .arr items, i =>
      match items.get? i with
      | some v => .ok v
      | none => .error .indexError
  | .str s, i =>
      match s.data.get? i with
      | some c => .ok (.str (String.mk [c]))
      | none => .error .indexError
  | .obj _, _ => .error .keyError
  | _, _ => .error .typeError

/-- Python subscripting `j[k]` for a string key `k`: object lookup
(KeyError when the key is absent), TypeError on every non-object
value. -/
def getItemStr : Json → String → Except PyExc Json
  | .obj fields, k =>
      match fields.lookup k with
      | some v => .ok v
      | none => .error .keyError
  | _, _ => .error .typeError

/-- The access path `result[0]["translations"][0]["text"]` applied to a
translator 200 response body. -/
def extractTranslation (result : Json) : Except PyExc Json := do
  let r0 ← getItemNat result 0
  let tr ← getItemStr r0 "translations"
  let t0 ← getItemNat tr 0
  getItemStr t0 "text"

/-- A pipeline-stage failure, as the broad `except` clause of the
orchestrator sees it.  `msg` is a `RuntimeError` carrying its message;
`httpError` is the `requests.HTTPError` from `raise_for_status` (it
references the status, the reason phrase and the request URL);
`requestError` is any other `requests.RequestException` (e.g. a
timeout); `unexpectedResponse` is the `RuntimeError` raised when the
translation access path is structurally absent, carrying the raw
decoded body; `pyExc` is an uncaught Python exception such as a
TypeError. -/
inductive PipeErr where
  | msg (s : String)
  | httpError (status : Nat) (reason : String) (url : String)
  | requestError (s : String)
  | unexpectedResponse (raw : Json)
  | pyExc (e : PyExc)

/-- Outcome of `recognizer.recognize_once()`. -/
inductive SttOutcome where
  | recognizedSpeech (text : String)
  | noMatch
  | canceled (reason error_details : String)
  | other (reasonCode : String)

/-- Outcome of `synthesizer.speak_text_async(text).get()`. -/
inductive TtsOutcome where
  | completed (audio_data : List Nat)
  | canceled (reason error_details : String)
  | other (reasonCode : String)

/-- A translator HTTP response: status code, reason phrase, raw body
text, and the decoded JSON body. -/
structure HttpResp where
  status : Nat
  reason : String
  text : String
  jsonBody : Json

/-- The outbound translator request issued by `requests.post(url,
headers=..., json=body, timeout=10)` in `translate_text`. -/
structure TransRequest where
  url : String
  headers : List (String × String)
  body : Json
  timeout : Nat

/-- Result of the outbound translator call: a response, or a transport
failure (a `requests.exceptions.RequestException` raised by `post`
itself). -/
inductive TransResult where
  | response (r : HttpResp)
  | transportError (s : String)

/-- The environment of one request: the process environment variables
and the remote capabilities (base64 decoding outcome, recognizer,
translator endpoint, synthesizer) as oracles. -/
structure Env where
  getenv : String → Option String
  b64decode : String → Except String (List Nat)
  recognize : List Nat → String → SttOutcome
  translateHttp : TransRequest → TransResult
  synthesize : Json → String → TtsOutcome

/-- Resolution of the speech key in `speech_to_text`:
`os.getenv("AZURE_SPEECH_KEY") or os.getenv("AZURE_SPEECH_API_KEY")`. -/
def sttSpeechKey (env : Env) : Option String :=
  pyOr (env.getenv "AZURE_SPEECH_KEY") (env.getenv "AZURE_SPEECH_API_KEY")

/-- Resolution of the speech region in `speech_to_text`:
`os.getenv("AZURE_SPEECH_REGION") or os.getenv("AZURE_SPEECH_LOCATION")`. -/
def sttSpeechRegion (env : Env) : Option String :=
  pyOr (env.getenv "AZURE_SPEECH_REGION") (env.getenv "AZURE_SPEECH_LOCATION")

/-- `speech_to_text(audio_bytes, locale)`: resolve credentials (failing
with the configuration `RuntimeError` when either is falsy), strip the
WAV header when present, run one recognition pass and map its outcome. -/
def speech_to_text (env : Env) (audio_bytes : List Nat) (locale : String) :
    Except PipeErr String :=
  if ¬ truthy (sttSpeechKey env) ∨ ¬ truthy (sttSpeechRegion env) then
    .error (.msg "Azure Speech credentials are not configured")
  else
    let pcm := normalizeAudio audio_bytes
    match env.recognize pcm locale with
    | .recognizedSpeech t => .ok t
    | .noMatch => .error (.msg "STT failed: No speech could be recognized")
    | .canceled r d => .error (.msg ("STT canceled: " ++ r ++ ", " ++ d))
    | .other c => .error (.msg ("STT failed: " ++ c))

/-- The raw translator endpoint resolution chain:
`os.getenv("AZURE_TRANSLATE_ENDPOINT") or os.getenv("AZURE_TRANSLATOR_ENDPOINT")
or os.getenv("AZURE_TRANSLATOR_URL")`. -/
def rawTranslatorEndpoint (env : Env) : Option String :=
  pyOr (pyOr (env.getenv "AZURE_TRANSLATE_ENDPOINT") (env.getenv "AZURE_TRANSLATOR_ENDPOINT"))
    (env.getenv "AZURE_TRANSLATOR_URL")

/-- `endpoint = raw_endpoint.rstrip("/") if raw_endpoint else None`. -/
def resolvedTranslatorEndpoint (env : Env) : Option String :=
  match rawTranslatorEndpoint env with
  | some s => some (rstripSlash s)
  | none => none

/-- `key = os.getenv("AZURE_TRANSLATE_KEY") or os.getenv("AZURE_TRANSLATOR_KEY")`. -/
def resolvedTranslatorKey (env : Env) : Option String :=
  pyOr (env.getenv "AZURE_TRANSLATE_KEY") (env.getenv "AZURE_TRANSLATOR_KEY")

/-- The stripped region value: the three-alias chain for the translator
region, defaulted to the empty string, then stripped of whitespace. -/
def resolvedTranslatorRegion (env : Env) : String :=
  pyStrip ((pyOr (pyOr (env.getenv "AZURE_TRANSLATE_REGION") (env.getenv "AZURE_TRANSLATOR_REGION"))
    (env.getenv "AZURE_TRANSLATOR_LOCATION")).getD "")

/-- The name of the credential header, `"Ocp-Apim-Subscription-Key"`. -/
def translatorKeyHeader : String := "Ocp-Apim-Subscription-Key"

/-- The translator request headers: the subscription key, the content
type, and the region header when the region value is non-empty. -/
def translateHeaders (key region_value : String) : List (String × String) :=
  [(translatorKeyHeader, key), ("Content-Type", "application/json")]
    ++ (if region_value != "" then [("Ocp-Apim-Subscription-Region", region_value)] else [])

/-- The redaction applied before logging a non-200 translator response:
keep every header entry whose name differs from
`"Ocp-Apim-Subscription-Key"`. -/
def safeHeaders (headers : List (String × String)) : List (String × String) :=
  headers.filter (fun kv => kv.1 != translatorKeyHeader)

/-- The fixed translator path, an f-string in the source:
`/translate?api-version=3.0&from=` + from-code + `&to=` + to-code. -/
def translatePath (from_lang to_lang : String) : String :=
  "/translate?api-version=3.0&from=" ++ from_lang ++ "&to=" ++ to_lang

/-- The outbound request of `translate_text`: the endpoint (already
rstripped of trailing slashes) plus the fixed path, the headers, the
single-element batch body carrying the text, and the 10-second
timeout. -/
def translateRequest (env : Env) (text source_locale target_locale : String) :
    TransRequest :=
  { url := (resolvedTranslatorEndpoint env).getD ""
      ++ translatePath (extract_language_code source_locale) (extract_language_code target_locale)
    headers := translateHeaders ((resolvedTranslatorKey env).getD "") (resolvedTranslatorRegion env)
    body := Json.arr [Json.obj [("text", Json.str text)]]
    timeout := 10 }

/-- `translate_text(text, source_locale, target_locale)`: derive
language codes (failing when either is empty), resolve endpoint and key
(failing when either is falsy), issue the request, raise on a 4xx/5xx
status (as `raise_for_status` does), and otherwise read
`result[0]["translations"][0]["text"]`, turning a KeyError or
IndexError into the unexpected-response failure that carries the raw
decoded body. -/
def translate_text (env : Env) (text source_locale target_locale : String) :
    Except PipeErr Json :=
  let from_lang := extract_language_code source_locale
  let to_lang := extract_language_code target_locale
  if from_lang = "" ∨ to_lang = "" then
    .error (.msg "Invalid locale provided for translation")
  else if ¬ truthy (resolvedTranslatorEndpoint env) ∨ ¬ truthy (resolvedTranslatorKey env) then
    .error (.msg "Azure Translator credentials are not configured")
  else
    let req := translateRequest env text source_locale target_locale
    match env.translateHttp req with
    | .transportError m => .error (.requestError m)
    | .response resp =>
        if 400 ≤ resp.status ∧ resp.status < 600 then
          .error (.httpError resp.status resp.reason req.url)
        else
          match extractTranslation resp.jsonBody with
          | .ok v => .ok v
          | .error .keyError => .error (.unexpectedResponse resp.jsonBody)
          | .error .indexError => .error (.unexpectedResponse resp.jsonBody)
          | .error .typeError => .error (.pyExc .typeError)

/-- `text_to_speech(text, target_locale, neural_voice)`: read
`AZURE_SPEECH_KEY` and `AZURE_SPEECH_REGION` (no aliases), failing with
the configuration `RuntimeError` when either is falsy, then run one
synthesis pass and map its outcome. -/
def text_to_speech (env : Env) (text : Json) (target_locale neural_voice : String) :
    Except PipeErr (List Nat) :=
  if ¬ truthy (env.getenv "AZURE_SPEECH_KEY") ∨ ¬ truthy (env.getenv "AZURE_SPEECH_REGION") then
    .error (.msg "Azure Speech credentials are not configured")
  else
    match env.synthesize text neural_voice with
    | .completed audio => .ok audio
    | .canceled r d => .error (.msg ("TTS canceled: " ++ r ++ ", " ++ d))
    | .other c => .error (.msg ("TTS failed: " ++ c))

/-- The four optional fields read from the request JSON body via
`req_body.get(...)`; `none` is an absent field. -/
structure ReqBody where
  source_locale : Option String
  target_locale : Option String
  neural_voice : Option String
  audio_data : Option String

/-- `all([source_locale, target_locale, neural_voice, audio_data])`:
every field present and truthy (non-empty). -/
def fieldsPresent (rb : ReqBody) : Bool :=
  truthy rb.source_locale && truthy rb.target_locale
    && truthy rb.neural_voice && truthy rb.audio_data

/-- The response body: a bare JSON error, a stage-tagged JSON error
(whose error field is the string form of the caught exception), or raw
audio bytes. -/
inductive RespBody where
  | jsonError (error : String)
  | jsonStageError (error : PipeErr) (stage : String)
  | audio (bytes : List Nat)

/-- An HTTP response of the handler. -/
structure HttpResponse where
  status_code : Nat
  body : RespBody

/-- The pipeline stages the handler can invoke, used to trace which
stage functions a request reaches. -/
inductive StageCall where
  | stt
  | translator
  | tts
deriving DecidableEq

/-- The HTTP handler `translate(req)`: reject invalid JSON (modelled as
`none`) and missing or falsy required fields with a 400, reject a
failed base64 decode with a stage-tagged 400, then run the three stages
in order, halting on the first failure with a 500 that pairs the
current stage name with the exception, and returning the synthesized
audio with a 200 on success.  The second component records which stage
functions were invoked, in order. -/
def translate (env : Env) (req_body : Option ReqBody) :
    HttpResponse × List StageCall :=
  match req_body with
  | none => (⟨400, .jsonError "Invalid JSON payload"⟩, [])
  | some rb =>
      if fieldsPresent rb then
        match env.b64decode (rb.audio_data.getD "") with
        | .error e => (⟨400, .jsonStageError (.msg ("Invalid audio data: " ++ e)) "decode_audio"⟩, [])
        | .ok audio_bytes =>
            match speech_to_text env audio_bytes (rb.source_locale.getD "") with
            | .error e => (⟨500, .jsonStageError e "speech_to_text"⟩, [.stt])
            | .ok transcribed_text =>
                match translate_text env transcribed_text (rb.source_locale.getD "")
                    (rb.target_locale.getD "") with
                | .error e => (⟨500, .jsonStageError e "translate_text"⟩, [.stt, .translator])
                | .ok translated_text =>
                    match text_to_speech env translated_text (rb.target_locale.getD "")
                        (rb.neural_voice.getD "") with
                    | .error e =>
                        (⟨500, .jsonStageError e "text_to_speech"⟩, [.stt, .translator, .tts])
                    | .ok translated_audio =>
                        (⟨200, .audio translated_audio⟩, [.stt, .translator, .tts])
      else
        (⟨400, .jsonError "Missing required fields"⟩, [])

/-- An environment with nothing configured: useful to observe which
check a stage function fails first. -/
def envNoConfig : Env where
  getenv := fun _ => none
  b64decode := fun _ => .ok []
  recognize := fun _ _ => .noMatch
  translateHttp := fun _ => .transportError "unreachable"
  synthesize := fun _ _ => .other "unreachable"

/-- An environment where only the alias variables of the speech
credentials are set (`AZURE_SPEECH_API_KEY`, `AZURE_SPEECH_LOCATION`),
not the primary ones. -/
def envAliasOnly : Env where
  getenv := fun v =>
    if v = "AZURE_SPEECH_API_KEY" then some "alias-speech-key"
    else if v = "AZURE_SPEECH_LOCATION" then some "alias-speech-region"
    else none
  b64decode := fun _ => .ok []
  recognize := fun _ _ => .recognizedSpeech "hello"
  translateHttp := fun _ => .transportError "unreachable"
  synthesize := fun _ _ => .completed [0]

/-- An environment with speech credentials configured whose recognizer
reports no-match. -/
def envNoMatch : Env where
  getenv := fun v =>
    if v = "AZURE_SPEECH_KEY" then some "speech-key"
    else if v = "AZURE_SPEECH_REGION" then some "speech-region"
    else none
  b64decode := fun _ => .ok [1, 2, 3]
  recognize := fun _ _ => .noMatch
  translateHttp := fun _ => .transportError "unreachable"
  synthesize := fun _ _ => .other "unreachable"

/-- A fully populated request body. -/
def rbFull : ReqBody :=
  ⟨some "en-US", some "fr-FR", some "fr-FR-VoiceX", some "QUJD"⟩

/-- An environment with full configuration whose translator endpoint
answers 403 Forbidden. -/
def env403 : Env where
  getenv := fun v =>
    if v = "AZURE_TRANSLATE_ENDPOINT" then some "https://api.example.test/"
    else if v = "AZURE_TRANSLATE_KEY" then some "secret-key"
    else if v = "AZURE_SPEECH_KEY" then some "speech-key"
    else if v = "AZURE_SPEECH_REGION" then some "speech-region"
    else none
  b64decode := fun _ => .ok [1]
  recognize := fun _ _ => .recognizedSpeech "hello"
  translateHttp := fun _ => .response ⟨403, "Forbidden", "denied", .null⟩
  synthesize := fun _ _ => .completed [9]

/-- A well-formed translator 200 response body. -/
def transBody : Json :=
  .arr [.obj [("translations", .arr [.obj [("text", .str "bonjour")]])]]

/-- An environment with full configuration whose translator endpoint
answers 200 with `transBody`. -/
def env200 : Env where
  getenv := fun v =>
    if v = "AZURE_TRANSLATE_ENDPOINT" then some "https://api.example.test/"
    else if v = "AZURE_TRANSLATE_KEY" then some "secret-key"
    else if v = "AZURE_SPEECH_KEY" then some "speech-key"
    else if v = "AZURE_SPEECH_REGION" then some "speech-region"
    else none
  b64decode := fun _ => .ok [1]
  recognize := fun _ _ => .recognizedSpeech "hello"
  translateHttp := fun _ => .response ⟨200, "OK", "", transBody⟩
  synthesize := fun _ _ => .completed [9]

lemma takeWhile_append_all (p : Char → Bool) :
    ∀ (l r : List Char), (∀ c ∈ l, p c = true) → (l ++ r).takeWhile p = l ++ r.takeWhile p := by
  intro l r h
  induction l with
  | nil => simp
  | cons x xs ih =>
      have hx : p x = true := h x (by simp)
      simp only [List.cons_append, List.takeWhile_cons, hx, if_true]
      rw [ih (fun c hc => h c (by simp [hc]))]

lemma head?_dropWhile_not (p : Char → Bool) :
    ∀ (l : List Char) (a : Char), (l.dropWhile p).head? = some a → p a = false := by
  intro l
  induction l with
  | nil => intro a h; simp [List.dropWhile] at h
  | cons x xs ih =>
      intro a h
      rw [List.dropWhile_cons] at h
      by_cases hx : p x = true
      · exact ih a (by simpa [hx] using h)
      · simp [hx] at h
        subst h
        simpa using hx

lemma ne_of_data_pre (q : String) (l : List Char) (hl : ¬ l <+: q.data) (c : String)
    (hc : l <+: c.data) : c ≠ q := fun he => hl (he ▸ hc)

lemma dataPre_append (l : List Char) (x y : String) (h : l <+: x.data) :
    l <+: (x ++ y).data := by
  rw [String.data_append]
  exact h.trans (List.prefix_append _ _)

lemma dataPre_self (x y : String) : x.data <+: (x ++ y).data := by
  rw [String.data_append]
  exact List.prefix_append _ _

lemma sttCanceled_ne (r d : String) :
    "STT canceled: " ++ r ++ ", " ++ d ≠ "Azure Speech credentials are not configured" :=
  ne_of_data_pre _ "STT canceled: ".data (by decide) _
    (dataPre_append _ _ _ (dataPre_append _ _ _ (dataPre_self _ _)))

lemma sttFailed_ne (c : String) :
    "STT failed: " ++ c ≠ "Azure Speech credentials are not configured" :=
  ne_of_data_pre _ "STT failed: ".data (by decide) _ (dataPre_self _ _)

lemma ttsCanceled_ne (r d : String) :
    "TTS canceled: " ++ r ++ ", " ++ d ≠ "Azure Speech credentials are not configured" :=
  ne_of_data_pre _ "TTS canceled: ".data (by decide) _
    (dataPre_append _ _ _ (dataPre_append _ _ _ (dataPre_self _ _)))

lemma ttsFailed_ne (c : String) :
    "TTS failed: " ++ c ≠ "Azure Speech credentials are not configured" :=
  ne_of_data_pre _ "TTS failed: ".data (by decide) _ (dataPre_self _ _)

/-- C1: if a stage raises a failure, the handler halts immediately (the
later stage functions are never invoked, as the call trace records) and
returns a 500 response pairing the identifier of that stage with the
failure; in particular, when the recognizer reports no-match, the
response is 500 with the error message "STT failed: No speech could be
recognized" and the stage tag "speech_to_text", with neither the
translator nor the synthesizer invoked. -/
theorem c1_stage_failure_halts :
    (∀ (env : Env) (rb : ReqBody) (audio_bytes : List Nat) (e : PipeErr),
      fieldsPresent rb = true →
      env.b64decode (rb.audio_data.getD "") = .ok audio_bytes →
      speech_to_text env audio_bytes (rb.source_locale.getD "") = .error e →
      translate env (some rb) = (⟨500, .jsonStageError e "speech_to_text"⟩, [.stt]))
    ∧ (∀ (env : Env) (rb : ReqBody) (audio_bytes : List Nat) (t : String) (e : PipeErr),
      fieldsPresent rb = true →
      env.b64decode (rb.audio_data.getD "") = .ok audio_bytes →
      speech_to_text env audio_bytes (rb.source_locale.getD "") = .ok t →
      translate_text env t (rb.source_locale.getD "") (rb.target_locale.getD "") = .error e →
      translate env (some rb) = (⟨500, .jsonStageError e "translate_text"⟩, [.stt, .translator]))
    ∧ (∀ (env : Env) (rb : ReqBody) (audio_bytes : List Nat) (t : String) (u : Json) (e : PipeErr),
      fieldsPresent rb = true →
      env.b64decode (rb.audio_data.getD "") = .ok audio_bytes →
      speech_to_text env audio_bytes (rb.source_locale.getD "") = .ok t →
      translate_text env t (rb.source_locale.getD "") (rb.target_locale.getD "") = .ok u →
      text_to_speech env u (rb.target_locale.getD "") (rb.neural_voice.getD "") = .error e →
      translate env (some rb) = (⟨500, .jsonStageError e "text_to_speech"⟩, [.stt, .translator, .tts]))
    ∧ (∀ (env : Env) (rb : ReqBody) (audio_bytes : List Nat),
      fieldsPresent rb = true →
      env.b64decode (rb.audio_data.getD "") = .ok audio_bytes →
      truthy (sttSpeechKey env) = true →
      truthy (sttSpeechRegion env) = true →
      env.recognize (normalizeAudio audio_bytes) (rb.source_locale.getD "") = .noMatch →
      translate env (some rb) =
        (⟨500, .jsonStageError (.msg "STT failed: No speech could be recognized") "speech_to_text"⟩,
          [.stt])) := by
  refine ⟨?_, ?_, ?_, ?_⟩
  · intro env rb audio_bytes e hf hdec hstt
    simp [translate, hf, hdec, hstt]
  · intro env rb audio_bytes t e hf hdec hstt htr
    simp [translate, hf, hdec, hstt, htr]
  · intro env rb audio_bytes t u e hf hdec hstt htr htts
    simp [translate, hf, hdec, hstt, htr, htts]
  · intro env rb audio_bytes hf hdec hk hr hrec
    have hstt : speech_to_text env audio_bytes (rb.source_locale.getD "")
        = .error (.msg "STT failed: No speech could be recognized") := by
      simp [speech_to_text, hk, hr, hrec]
    simp [translate, hf, hdec, hstt]

/-- Witness for C1: the no-match scenario on a concrete environment. -/
theorem c1_stage_failure_halts_witness :
    translate envNoMatch (some rbFull) =
      (⟨500, .jsonStageError (.msg "STT failed: No speech could be recognized") "speech_to_text"⟩,
        [.stt]) :=
  c1_stage_failure_halts.2.2.2 envNoMatch rbFull [1, 2, 3] rfl rfl rfl rfl rfl

/-- C2: audio that is longer than 44 bytes and starts with the RIFF
marker is normalized to its bytes from offset 44 onward; every other
audio value is returned unchanged. -/
theorem c2_normalize_strips_riff_header :
    ∀ a : List Nat,
      (44 < a.length ∧ a.take 4 = riffMarker → normalizeAudio a = a.drop 44)
      ∧ (¬ (44 < a.length ∧ a.take 4 = riffMarker) → normalizeAudio a = a) := by
  intro a
  constructor
  · intro h; simp [normalizeAudio, h]
  · intro h; simp [normalizeAudio, h]

/-- Witness for C2: a 45-byte RIFF-headed input is stripped, a short
headerless input is unchanged. -/
theorem c2_normalize_strips_riff_header_witness :
    normalizeAudio (riffMarker ++ List.replicate 41 0) = (riffMarker ++ List.replicate 41 0).drop 44
    ∧ normalizeAudio [1, 2, 3] = [1, 2, 3] :=
  ⟨(c2_normalize_strips_riff_header _).1 ⟨by decide, rfl⟩,
    (c2_normalize_strips_riff_header _).2 (by decide)⟩

/-- Counterexample for C3: a separator-less locale such as "en" is
returned whole by `extract_language_code`, not as the empty string, and
`translate_text` then passes the locale check and fails on the next
check (missing credentials) instead of raising the invalid-locale
error. -/
theorem c3_counterexample :
    extract_language_code "en" = "en"
    ∧ translate_text envNoConfig "hello" "en" "fr"
        = .error (.msg "Azure Translator credentials are not configured") :=
  ⟨rfl, rfl⟩

/-- C3 as amended: for a locale of the form code-region (code free of
the separator), the code segment is returned; the empty locale yields
the empty string; a separator-less non-empty locale is returned whole
(so it does not trigger the invalid-locale failure); and whenever
either extracted code is empty, `translate_text` fails with the
invalid-locale error regardless of the environment, hence before any
outbound request is constructed or issued. -/
theorem c3_amended :
    (∀ code region : String, (∀ c ∈ code.data, c ≠ '-') →
      extract_language_code (code ++ "-" ++ region) = code)
    ∧ extract_language_code "" = ""
    ∧ (∀ l : String, l ≠ "" → (∀ c ∈ l.data, c ≠ '-') → extract_language_code l = l)
    ∧ (∀ (env : Env) (text source_locale target_locale : String),
      extract_language_code source_locale = "" ∨ extract_language_code target_locale = "" →
      translate_text env text source_locale target_locale
        = .error (.msg "Invalid locale provided for translation")) := by
  refine ⟨?_, rfl, ?_, ?_⟩
  · intro code region h
    have hdata : (code ++ "-" ++ region).data = code.data ++ '-' :: region.data := by
      rw [String.data_append, String.data_append, List.append_assoc]
      rfl
    have hne : (code ++ "-" ++ region) ≠ "" := by
      intro he
      have : (code ++ "-" ++ region).data = [] := by rw [he]
      rw [hdata] at this
      simp at this
    rw [extract_language_code, if_neg hne, hdata,
      takeWhile_append_all _ _ _ (fun c hc => bne_iff_ne.mpr (h c hc))]
    simp
  · intro l hne h
    rw [extract_language_code, if_neg hne]
    have : l.data.takeWhile (fun c => c != '-') = l.data := by
      have := takeWhile_append_all (fun c => c != '-') l.data []
        (fun c hc => bne_iff_ne.mpr (h c hc))
      simpa using this
    rw [this]
  · intro env text source_locale target_locale h
    simp only [translate_text]
    rw [if_pos h]

/-- Witness for C3 amended: the code of "en-US" is "en", and an empty
source locale makes `translate_text` fail with the invalid-locale error
even with nothing configured. -/
theorem c3_amended_witness :
    extract_language_code ("en" ++ "-" ++ "US") = "en"
    ∧ translate_text envNoConfig "hello" "" "fr-FR"
        = .error (.msg "Invalid locale provided for translation") :=
  ⟨c3_amended.1 "en" "US" (by decide),
    c3_amended.2.2.2 envNoConfig "hello" "" "fr-FR" (Or.inl rfl)⟩

/-- Counterexample for C4: in an environment where only the alias
variables of the speech credentials hold (non-empty) values, the
recognition stage resolves them, but the synthesis stage — which reads
only `AZURE_SPEECH_KEY` and `AZURE_SPEECH_REGION` — fails with the
configuration error even though an alias holds a non-empty value. -/
theorem c4_counterexample :
    truthy (envAliasOnly.getenv "AZURE_SPEECH_API_KEY") = true
    ∧ truthy (envAliasOnly.getenv "AZURE_SPEECH_LOCATION") = true
    ∧ envAliasOnly.getenv "AZURE_SPEECH_KEY" = none
    ∧ speech_to_text envAliasOnly [] "en-US" = .ok "hello"
    ∧ text_to_speech envAliasOnly (.str "bonjour") "fr-FR" "fr-FR-VoiceX"
        = .error (.msg "Azure Speech credentials are not configured") :=
  ⟨rfl, rfl, rfl, rfl, rfl⟩

/-- C4 as amended: alias resolution is first-non-empty-wins
(`pyOr`), the recognition stage fails with the configuration error
exactly when neither key alias or neither region alias is truthy, the
translation stage (on valid locales) fails with its configuration error
exactly when the resolved endpoint or resolved key is falsy, but the
synthesis stage consults only the primary `AZURE_SPEECH_KEY` and
`AZURE_SPEECH_REGION` variables and fails exactly when either of those
two is falsy, aliases notwithstanding. -/
theorem c4_amended :
    (∀ a b : Option String, truthy (pyOr a b) = (truthy a || truthy b))
    ∧ (∀ a b : Option String, truthy a = true → pyOr a b = a)
    ∧ (∀ a b : Option String, truthy a = false → pyOr a b = b)
    ∧ (∀ (env : Env) (audio_bytes : List Nat) (locale : String),
        speech_to_text env audio_bytes locale
            = .error (.msg "Azure Speech credentials are not configured")
          ↔ (truthy (sttSpeechKey env) = false ∨ truthy (sttSpeechRegion env) = false))
    ∧ (∀ (env : Env) (text source_locale target_locale : String),
        extract_language_code source_locale ≠ "" →
        extract_language_code target_locale ≠ "" →
        (translate_text env text source_locale target_locale
            = .error (.msg "Azure Translator credentials are not configured")
          ↔ (truthy (resolvedTranslatorEndpoint env) = false
              ∨ truthy (resolvedTranslatorKey env) = false)))
    ∧ (∀ (env : Env) (text : Json) (target_locale neural_voice : String),
        text_to_speech env text target_locale neural_voice
            = .error (.msg "Azure Speech credentials are not configured")
          ↔ (truthy (env.getenv "AZURE_SPEECH_KEY") = false
              ∨ truthy (env.getenv "AZURE_SPEECH_REGION") = false)) := by
  refine ⟨?_, ?_, ?_, ?_, ?_, ?_⟩
  · intro a b
    by_cases h : truthy a <;> simp [pyOr, h]
  · intro a b h
    simp [pyOr, h]
  · intro a b h
    simp [pyOr, h]
  · intro env audio_bytes locale
    constructor
    · intro h
      by_cases hk : truthy (sttSpeechKey env) = true
      · by_cases hr : truthy (sttSpeechRegion env) = true
        · exfalso
          simp only [speech_to_text, hk, hr] at h
          simp only [not_true, or_self, if_false] at h
          cases hrec : env.recognize (normalizeAudio audio_bytes) locale with
          | recognizedSpeech t => rw [hrec] at h; simp at h
          | noMatch => rw [hrec] at h; simp at h
          | canceled r d =>
              rw [hrec] at h
              simp only [Except.error.injEq, PipeErr.msg.injEq] at h
              exact sttCanceled_ne r d h
          | other c =>
              rw [hrec] at h
              simp only [Except.error.injEq, PipeErr.msg.injEq] at h
              exact sttFailed_ne c h
        · exact Or.inr (by simpa using hr)
      · exact Or.inl (by simpa using hk)
    · intro h
      rcases h with h | h <;> simp [speech_to_text, h]
  · intro env text source_locale target_locale h1 h2
    constructor
    · intro h
      by_cases he : truthy (resolvedTranslatorEndpoint env) = true
      · by_cases hk : truthy (resolvedTranslatorKey env) = true
        · exfalso
          simp only [translate_text, h1, h2, he, hk] at h
          simp only [not_true, or_self, if_false] at h
          rcases hcall : env.translateHttp
              (translateRequest env text source_locale target_locale) with resp | m
          · rw [hcall] at h
            dsimp only at h
            by_cases hst : 400 ≤ resp.status ∧ resp.status < 600
            · rw [if_pos hst] at h; simp at h
            · rw [if_neg hst] at h
              rcases hext : extractTranslation resp.jsonBody with e | v
              · rw [hext] at h
                cases e <;> simp at h
              · rw [hext] at h
                simp at h
          · rw [hcall] at h; simp at h
        · exact Or.inr (by simpa using hk)
      · exact Or.inl (by simpa using he)
    · intro h
      rcases h with h | h <;> simp [translate_text, h1, h2, h]
  · intro env text target_locale neural_voice
    constructor
    · intro h
      by_cases hk : truthy (env.getenv "AZURE_SPEECH_KEY") = true
      · by_cases hr : truthy (env.getenv "AZURE_SPEECH_REGION") = true
        · exfalso
          simp only [text_to_speech, hk, hr] at h
          simp only [not_true, or_self, if_false] at h
          cases hrec : env.synthesize text neural_voice with
          | completed audio => rw [hrec] at h; simp at h
          | canceled r d =>
              rw [hrec] at h
              simp only [Except.error.injEq, PipeErr.msg.injEq] at h
              exact ttsCanceled_ne r d h
          | other c =>
              rw [hrec] at h
              simp only [Except.error.injEq, PipeErr.msg.injEq] at h
              exact ttsFailed_ne c h
        · exact Or.inr (by simpa using hr)
      · exact Or.inl (by simpa using hk)
    · intro h
      rcases h with h | h <;> simp [text_to_speech, h]

/-- Witness for C4 amended: the synthesis stage on the alias-only
environment fails with the configuration error. -/
theorem c4_amended_witness :
    text_to_speech envAliasOnly (.str "bonjour") "fr-FR" "fr-FR-VoiceX"
      = .error (.msg "Azure Speech credentials are not configured") :=
  (c4_amended.2.2.2.2.2 envAliasOnly (.str "bonjour") "fr-FR" "fr-FR-VoiceX").mpr (Or.inl rfl)

/-- C5: the subscription key is placed in the outbound headers, but the
redacted header list logged on a non-200 status contains neither the
key header entry nor (when the key differs from the fixed content type
and the region value) the key value; and the error raised on a non-200
status is the HTTP error carrying only the status, the reason phrase
and the request URL. -/
theorem c5_key_never_logged :
    ∀ (env : Env) (text source_locale target_locale key : String),
    resolvedTranslatorKey env = some key →
    key ≠ "" →
    key ≠ "application/json" →
    key ≠ resolvedTranslatorRegion env →
    ((translatorKeyHeader, key) ∈ (translateRequest env text source_locale target_locale).headers)
    ∧ (∀ kv ∈ safeHeaders (translateRequest env text source_locale target_locale).headers,
        kv.1 ≠ translatorKeyHeader ∧ kv.2 ≠ key)
    ∧ (∀ resp : HttpResp,
        extract_language_code source_locale ≠ "" →
        extract_language_code target_locale ≠ "" →
        truthy (resolvedTranslatorEndpoint env) = true →
        env.translateHttp (translateRequest env text source_locale target_locale)
          = .response resp →
        400 ≤ resp.status → resp.status < 600 →
        translate_text env text source_locale target_locale
          = .error (.httpError resp.status resp.reason
              (translateRequest env text source_locale target_locale).url)) := by
  intro env text source_locale target_locale key hkey hkne hk1 hk2
  refine ⟨?_, ?_, ?_⟩
  · simp [translateRequest, translateHeaders, hkey]
  · intro kv hkv
    obtain ⟨hmem, hpred⟩ :
        kv ∈ (translateRequest env text source_locale target_locale).headers
          ∧ ¬ kv.1 = translatorKeyHeader := by
      simpa [safeHeaders] using hkv
    refine ⟨hpred, ?_⟩
    simp only [translateRequest, translateHeaders, hkey, Option.getD_some] at hmem
    rcases List.mem_append.mp hmem with hm | hm
    · simp only [List.mem_cons, List.mem_singleton, List.not_mem_nil] at hm
      rcases hm with hm | hm
      · exfalso
        rw [hm] at hpred
        simp at hpred
      · rcases hm with hm | hm
        · rw [hm]
          exact fun he => hk1 he.symm
        · exact absurd hm (by simp)
    · by_cases hreg : resolvedTranslatorRegion env != ""
      · rw [if_pos hreg] at hm
        simp only [List.mem_singleton] at hm
        rw [hm]
        exact fun he => hk2 he.symm
      · rw [if_neg hreg] at hm
        exact absurd hm (by simp)
  · intro resp h1 h2 h3 hresp hs1 hs2
    have h4 : truthy (resolvedTranslatorKey env) = true := by
      simp [hkey, truthy, hkne]
    simp [translate_text, h1, h2, h3, h4, hresp, hs1, hs2]

/-- Witness for C5: the concrete 403 environment, whose key differs
from the benign header values. -/
theorem c5_key_never_logged_witness :
    translate_text env403 "hello" "en-US" "fr-FR"
      = .error (.httpError 403 "Forbidden" (translateRequest env403 "hello" "en-US" "fr-FR").url) :=
  (c5_key_never_logged env403 "hello" "en-US" "fr-FR" "secret-key" rfl (by decide) (by decide)
      (by decide)).2.2
    ⟨403, "Forbidden", "denied", .null⟩ (by decide) (by decide) (by decide) rfl (by decide)
    (by decide)

/-- C6: on a 200 translator response, `translate_text` returns exactly
the value at `result[0]["translations"][0]["text"]` when that path
exists, and fails with the unexpected-response error carrying the raw
decoded body when the path is structurally absent (a missing key or
index). -/
theorem c6_translation_response_parsing :
    ∀ (env : Env) (text source_locale target_locale : String) (resp : HttpResp),
    extract_language_code source_locale ≠ "" →
    extract_language_code target_locale ≠ "" →
    truthy (resolvedTranslatorEndpoint env) = true →
    truthy (resolvedTranslatorKey env) = true →
    env.translateHttp (translateRequest env text source_locale target_locale) = .response resp →
    resp.status = 200 →
    (∀ v : Json, extractTranslation resp.jsonBody = .ok v →
      translate_text env text source_locale target_locale = .ok v)
    ∧ (extractTranslation resp.jsonBody = .error .keyError
        ∨ extractTranslation resp.jsonBody = .error .indexError →
      translate_text env text source_locale target_locale
        = .error (.unexpectedResponse resp.jsonBody)) := by
  intro env text source_locale target_locale resp h1 h2 h3 h4 hresp hstatus
  constructor
  · intro v hext
    simp [translate_text, h1, h2, h3, h4, hresp, hstatus, hext]
  · intro hext
    rcases hext with hext | hext <;>
      simp [translate_text, h1, h2, h3, h4, hresp, hstatus, hext]

/-- Witness for C6: the concrete 200 environment yields the first text
of the first result. -/
theorem c6_translation_response_parsing_witness :
    translate_text env200 "hello" "en-US" "fr-FR" = .ok (.str "bonjour") :=
  (c6_translation_response_parsing env200 "hello" "en-US" "fr-FR" ⟨200, "OK", "", transBody⟩
      (by decide) (by decide) (by decide) (by decide) rfl rfl).1
    (.str "bonjour") rfl

/-- C7: a request body missing any of the four required fields is
rejected with 400 and the missing-fields error, with no stage function
invoked. -/
theorem c7_missing_fields_rejected :
    ∀ (env : Env) (rb : ReqBody),
    rb.source_locale = none ∨ rb.target_locale = none
      ∨ rb.neural_voice = none ∨ rb.audio_data = none →
    translate env (some rb) = (⟨400, .jsonError "Missing required fields"⟩, []) := by
  intro env rb h
  have hf : fieldsPresent rb = false := by
    rcases h with h | h | h | h <;> simp [fieldsPresent, h, truthy]
  simp [translate, hf]

/-- Witness for C7: a body without a neural voice. -/
theorem c7_missing_fields_rejected_witness :
    translate envNoMatch (some ⟨some "en-US", some "fr-FR", none, some "QUJD"⟩)
      = (⟨400, .jsonError "Missing required fields"⟩, []) :=
  c7_missing_fields_rejected envNoMatch _ (Or.inr (Or.inr (Or.inl rfl)))

/-- C8: normalization is idempotent on any input whose normalized form
does not itself both exceed 44 bytes and start with the RIFF marker. -/
theorem c8_normalize_idempotent :
    ∀ a : List Nat,
      ¬ (44 < (normalizeAudio a).length ∧ (normalizeAudio a).take 4 = riffMarker) →
      normalizeAudio (normalizeAudio a) = normalizeAudio a := by
  intro a h
  generalize normalizeAudio a = b at h ⊢
  simp [normalizeAudio, h]

/-- Witness for C8: a 100-byte headerless payload. -/
theorem c8_normalize_idempotent_witness :
    normalizeAudio (normalizeAudio (List.replicate 100 7))
      = normalizeAudio (List.replicate 100 7) :=
  c8_normalize_idempotent (List.replicate 100 7) (by decide)

/-- C9: a request body in which any required field is present but equal
to the empty string is rejected exactly like an absent field — 400 with
the missing-fields error and no stage function invoked — because the
presence check uses truthiness. -/
theorem c9_empty_fields_rejected :
    ∀ (env : Env) (rb : ReqBody),
    rb.source_locale = some "" ∨ rb.target_locale = some ""
      ∨ rb.neural_voice = some "" ∨ rb.audio_data = some "" →
    translate env (some rb) = (⟨400, .jsonError "Missing required fields"⟩, []) := by
  intro env rb h
  have hf : fieldsPresent rb = false := by
    rcases h with h | h | h | h <;> simp [fieldsPresent, h, truthy]
  simp [translate, hf]

/-- Witness for C9: a body whose neural voice is the empty string. -/
theorem c9_empty_fields_rejected_witness :
    translate envNoMatch (some ⟨some "en-US", some "fr-FR", some "", some "QUJD"⟩)
      = (⟨400, .jsonError "Missing required fields"⟩, []) :=
  c9_empty_fields_rejected envNoMatch _ (Or.inr (Or.inr (Or.inl rfl)))

/-- C10: the constructed translator URL is the configured endpoint with
all trailing slashes stripped, followed by the fixed path; the stripped
endpoint never ends in a slash while the path always starts with one,
so no double slash can occur at the junction. -/
theorem c10_no_double_slash :
    ∀ (env : Env) (text source_locale target_locale raw : String),
    rawTranslatorEndpoint env = some raw →
    ((translateRequest env text source_locale target_locale).url
        = rstripSlash raw ++ translatePath (extract_language_code source_locale)
            (extract_language_code target_locale))
    ∧ (∀ c : Char, (rstripSlash raw).data.getLast? = some c → (c == '/') = false)
    ∧ (translatePath (extract_language_code source_locale)
        (extract_language_code target_locale)).data.head? = some '/' := by
  intro env text source_locale target_locale raw h
  refine ⟨?_, ?_, ?_⟩
  · simp [translateRequest, resolvedTranslatorEndpoint, h]
  · intro c hc
    have hdata : (rstripSlash raw).data
        = (raw.data.reverse.dropWhile (fun c => c == '/')).reverse := rfl
    rw [hdata, List.getLast?_reverse] at hc
    exact head?_dropWhile_not (fun c => c == '/') raw.data.reverse c hc
  · rw [translatePath]
    rw [String.data_append, String.data_append, String.data_append]
    rfl

/-- Witness for C10: the 403 environment, whose configured endpoint
ends in a slash. -/
theorem c10_no_double_slash_witness :
    (translateRequest env403 "hello" "en-US" "fr-FR").url
      = rstripSlash "https://api.example.test/"
        ++ translatePath (extract_language_code "en-US") (extract_language_code "fr-FR") :=
  (c10_no_double_slash env403 "hello" "en-US" "fr-FR" "https://api.example.test/" rfl).1

end SpeechApp
